import Mathlib

/-
Verification of the Arifi-01 Protocol Runner (src/arifi_protocol_runner/).

The development shallowly embeds the two Python modules:
  * arifi_protocol_runner.py : language detection, subprocess wrapper,
    analysis aggregation, quality gate, artifact store, evolution loop;
  * ai_backend.py : provider selection, stub/remote code generation,
    fenced-code extraction, repair.

External effects (subprocess execution, the remote model call, the wall
clock) are modelled as explicit oracle parameters; the filesystem is an
association list from path to file data.  Machine behaviour such as
Python string methods is re-implemented over `List Char` so that every
definition is executable and kernel-reducible.
-/

namespace ARunner

/-- Result record of one external command invocation, as produced by the
subprocess wrapper in arifi_protocol_runner.py (keys rc/stdout/stderr). -/
structure CmdResult where
  rc : Int
  stdout : String
  stderr : String
deriving DecidableEq, Repr

/-- Outcome of attempting to launch one external process: either the
process ran and produced an exit code with both streams, or the launch
raised an exception (missing executable, timeout, ...) whose text is kept. -/
inductive ExecOutcome where
  | ok (rc : Int) (out err : String)
  | exn (msg : String)
deriving DecidableEq, Repr

/-- Python str.strip() over the default whitespace set. -/
def pyIsSpace (c : Char) : Bool :=
  c == ' ' || c == '\t' || c == '\n' || c == '\r' || c == '\x0b' || c == '\x0c'

/-- Python str.strip(): drop leading and trailing whitespace. -/
def pyStrip (s : String) : String :=
  ⟨((s.data.dropWhile pyIsSpace).reverse.dropWhile pyIsSpace).reverse⟩

/-- Python str.lower() (ASCII range, which covers every use in the source). -/
def pyLower (s : String) : String :=
  ⟨s.data.map Char.toLower⟩

/-- Does the second list occur as a leading segment of the first argument list? -/
def strHasPrefixL : List Char → List Char → Bool
  | [], _ => true
  | _ :: _, [] => false
  | p :: ps, c :: cs => p == c && strHasPrefixL ps cs

/-- Python substring containment `sub in s`, over char lists. -/
def strContainsL : List Char → List Char → Bool
  | [], needle => strHasPrefixL needle []
  | c :: rest, needle => strHasPrefixL needle (c :: rest) || strContainsL rest needle

/-- Python `sub in s` on strings. -/
def pyContains (s sub : String) : Bool :=
  strContainsL s.data sub.data

/-- Models detect_language_from_prompt (arifi_protocol_runner.py lines 29-35). -/
def detect_language_from_prompt (prompt : String) : String :=
  let lower := pyLower prompt
  if pyContains lower "javascript" || pyContains lower "js" || pyContains lower ".js" then
    "javascript"
  else if pyContains lower "typescript" || pyContains lower "ts " then
    "typescript"
  else
    "python"

/-- Models the subprocess wrapper (arifi_protocol_runner.py lines 37-42,
Python name run cmd): a successful run strips both captured streams; any
exception (timeout, missing executable, ...) is converted into the
synthetic record with exit status 2, empty stdout and the exception text. -/
def runCmd (o : ExecOutcome) : CmdResult :=
  match o with
  | ExecOutcome.ok rc out err => ⟨rc, pyStrip out, pyStrip err⟩
  | ExecOutcome.exn msg => ⟨2, "", msg⟩

/-- The analysis report: the tool-name-keyed findings of analyze_file, in
insertion order, plus the optional informational "note" entry written for
unknown languages.  (In the Python dict the note lives under the key
"note", which is distinct from every analyzer key, so keeping it apart
from the findings preserves all lookups the program performs.) -/
structure Report where
  findings : List (String × CmdResult)
  note : Option String
deriving DecidableEq, Repr

/-- Models analyze_file (arifi_protocol_runner.py lines 44-60).  `lang` is
the artifact path's suffix without the dot; `world` gives the outcome of
invoking each analyzer process on the artifact. -/
def analyze_file (lang : String) (world : String → ExecOutcome) : Report :=
  if lang = "py" then
    { findings := [("flake8", runCmd (world "flake8")),
                   ("mypy", runCmd (world "mypy")),
                   ("radon", runCmd (world "radon"))],
      note := none }
  else if lang = "js" ∨ lang = "ts" then
    { findings := [("eslint", runCmd (world "eslint"))], note := none }
  else
    { findings := [], note := some ("no analyzer for ." ++ lang) }

/-- One clause of metrics_ok: `tool in report and report[tool]["rc"] != 0`. -/
def failsTool (report : Report) (tool : String) : Bool :=
  match List.lookup tool report.findings with
  | some r => r.rc != 0
  | none => false

/-- Models metrics_ok (arifi_protocol_runner.py lines 62-75): the gate
fails iff one of the flake8 / mypy / eslint entries is present with a
non-zero exit status; every other entry (radon included) is not consulted. -/
def metrics_ok (report : Report) : Bool :=
  if failsTool report "flake8" then false
  else if failsTool report "mypy" then false
  else if failsTool report "eslint" then false
  else true

/-! ## ai_backend.py -/

/-- Result record of a generation / repair call (ai_backend.py): success
flag, optional code and raw text, optional error, and the metadata dict. -/
structure GenResult where
  success : Bool
  code : Option String
  raw : Option String
  error : Option String
  meta : List (String × String)
deriving DecidableEq, Repr

/-- Python truthiness of the OPENAI_API_KEY environment value. -/
def apiKeyTruthy (k : Option String) : Bool :=
  match k with
  | some s => s != ""
  | none => false

/-- Models provider selection in AIBackend.__init__ (ai_backend.py lines
31-40): `provider or ("openai" if OPENAI_PKG and OPENAI_API_KEY else
"local")`, including Python's falsiness of the empty string. -/
def selectProvider (explicit : Option String) (openaiPkg : Bool) (apiKey : Option String) :
    String :=
  let auto := if openaiPkg && apiKeyTruthy apiKey then "openai" else "local"
  match explicit with
  | some p => if p != "" then p else auto
  | none => auto

/-- Regex `\w` (ASCII range, which covers every input considered here). -/
def isWordChar (c : Char) : Bool :=
  c.isAlphanum || c == '_'

/-- The character class `[\\s\\S]` of the extraction regex.  Because the
pattern is written inside a Python raw string, `\\` is a literal
backslash, so the class matches exactly backslash, lowercase s and
uppercase S. -/
def fenceClassChar (c : Char) : Bool :=
  c == '\\' || c == 's' || c == 'S'

/-- Lazy capture of `([\\s\\S]*?)` followed by the closing `\\n` + three
backticks: at each position the closer is tried first (shortest match),
otherwise one more class character is consumed. -/
def capScan : List Char → Option (List Char)
  | '\\' :: 'n' :: '`' :: '`' :: '`' :: _ => some []
  | c :: rest => if fenceClassChar c then (capScan rest).map (fun l => c :: l) else none
  | [] => none

/-- Match of the first extraction regex
`r"```(?:\w+)?\\n([\\s\\S]*?)\\n```"` anchored at the head of the list.
`(?:\w+)?` can only succeed by consuming the maximal word-character run
(a shorter run leaves a word character where the literal backslash is
required), and `\\n` denotes the two literal characters backslash, n. -/
def fenceMatchAt (cs : List Char) : Option String :=
  match cs with
  | '`' :: '`' :: '`' :: rest =>
    match rest.dropWhile isWordChar with
    | '\\' :: 'n' :: rest2 => (capScan rest2).map (fun l => ⟨l⟩)
    | _ => none
  | _ => none

/-- re.search for the first regex: leftmost position at which an anchored
match exists, returning that match's capture group. -/
def fenceSearch : List Char → Option String
  | [] => none
  | c :: rest =>
    match fenceMatchAt (c :: rest) with
    | some g => some g
    | none => fenceSearch rest

/-- Match of the second extraction regex `r"```\\n([\\s\\S]*?)\\n```"`
anchored at the head of the list. -/
def fenceMatchAt2 (cs : List Char) : Option String :=
  match cs with
  | '`' :: '`' :: '`' :: '\\' :: 'n' :: rest2 => (capScan rest2).map (fun l => ⟨l⟩)
  | _ => none

/-- re.search for the second regex. -/
def fenceSearch2 : List Char → Option String
  | [] => none
  | c :: rest =>
    match fenceMatchAt2 (c :: rest) with
    | some g => some g
    | none => fenceSearch2 rest

/-- Models AIBackend._extract_code (ai_backend.py lines 135-148): try the
first pattern, then the fallback pattern, else None. -/
def extract_code (text : String) : Option String :=
  match fenceSearch text.data with
  | some g => some g
  | none => fenceSearch2 text.data

/-- Python truthiness of `self._extract_code(text)`: a non-None, non-empty
extraction result. -/
def hasTruthyCode (text : String) : Bool :=
  match extract_code text with
  | some c => c != ""
  | none => false

/-- The JavaScript stub template of the local provider branch of
AIBackend.generate_code (ai_backend.py lines 81-91). -/
def jsStub (prompt : String) : String :=
  "// Generated (stub) JavaScript code for prompt:\n// " ++ prompt ++
  "\n\nfunction tambah(a, b) \x7b\n  return a + b;\n\x7d\n\n// Example usage:\nconsole.log(\"2 + 3 =\", tambah(2, 3));\n"

/-- The Python stub template of the local provider branch of
AIBackend.generate_code (ai_backend.py lines 92-101). -/
def pyStub (prompt : String) : String :=
  "# Generated (stub) Python code for prompt:\n# " ++ prompt ++
  "\n\ndef tambah(a, b):\n    return a + b\n\nif __name__ == \"__main__\":\n    print(\"2 + 3 =\", tambah(2, 3))\n"

/-- The local / stub branch of AIBackend.generate_code (ai_backend.py
lines 78-102): the JavaScript template iff the lowered language string
starts with "js", otherwise the Python template. -/
def generate_code_local (prompt language : String) : GenResult :=
  if strHasPrefixL "js".data (pyLower language).data then
    ⟨true, some (jsStub prompt), none, none, [("provider", "local"), ("model", "stub")]⟩
  else
    ⟨true, some (pyStub prompt), none, none, [("provider", "local"), ("model", "stub")]⟩

/-- Outcome of one remote ChatCompletion call: the content text of the
response, or a raised exception. -/
inductive CallOutcome where
  | resp (text : String)
  | exn (msg : String)
deriving DecidableEq, Repr

/-- Observable trace of one generate_code invocation: its returned
record, the number of remote calls issued, and the list of sleep
durations (seconds) performed between attempts. -/
structure GenCallTrace where
  result : GenResult
  calls : Nat
  sleeps : List Nat
deriving DecidableEq, Repr

/-- The metadata dict attached to OpenAI-branch results. -/
def openaiMeta (model : String) : List (String × String) :=
  [("provider", "openai"), ("model", model)]

/-- The retry loop of the OpenAI branch of AIBackend.generate_code
(ai_backend.py lines 55-77), written with the remaining retry budget
(`remaining = max_retry - attempt`) as structural fuel.  A raised
exception anywhere returns success=false immediately (the try/except
wraps the whole loop, so no retry happens on exceptions); a response
with a truthy extracted block returns it; otherwise the loop sleeps
`1 + attempt` seconds and re-calls while budget remains, and on the last
attempt returns the raw text with success=true. -/
def genAttempts (model : String) (oracle : Nat → CallOutcome) : Nat → Nat → GenCallTrace
  | attempt, 0 =>
    match oracle attempt with
    | CallOutcome.exn msg => ⟨⟨false, none, none, some msg, []⟩, 1, []⟩
    | CallOutcome.resp t =>
      let text := pyStrip t
      match extract_code text with
      | some code =>
        if code != "" then
          ⟨⟨true, some code, some text, none, openaiMeta model⟩, 1, []⟩
        else
          ⟨⟨true, some text, some text, none, openaiMeta model⟩, 1, []⟩
      | none => ⟨⟨true, some text, some text, none, openaiMeta model⟩, 1, []⟩
  | attempt, remaining + 1 =>
    match oracle attempt with
    | CallOutcome.exn msg => ⟨⟨false, none, none, some msg, []⟩, 1, []⟩
    | CallOutcome.resp t =>
      let text := pyStrip t
      match extract_code text with
      | some code =>
        if code != "" then
          ⟨⟨true, some code, some text, none, openaiMeta model⟩, 1, []⟩
        else
          let r := genAttempts model oracle (attempt + 1) remaining
          ⟨r.result, r.calls + 1, (1 + attempt) :: r.sleeps⟩
      | none =>
        let r := genAttempts model oracle (attempt + 1) remaining
        ⟨r.result, r.calls + 1, (1 + attempt) :: r.sleeps⟩

/-- Models AIBackend.generate_code (ai_backend.py lines 42-102): the
OpenAI branch runs the retry loop from attempt 0 with budget max_retry;
any other provider produces the deterministic local stub with no remote
call and no sleep. -/
def generate_code (provider : String) (openaiPkg : Bool) (model : String)
    (oracle : Nat → CallOutcome) (max_retry : Nat) (prompt language : String) : GenCallTrace :=
  if (provider == "openai") && openaiPkg then
    genAttempts model oracle 0 max_retry
  else
    ⟨generate_code_local prompt language, 0, []⟩

/-- Models AIBackend.repair_code (ai_backend.py lines 104-133): the
OpenAI branch performs a single call (no retry loop) and falls back to
the raw text when extraction is falsy; the local branch returns the
input code unchanged with success=true. -/
def repair_code (provider : String) (openaiPkg : Bool) (oracle : CallOutcome)
    (model code : String) (analysisReport : Report) (language : String) : GenResult :=
  if (provider == "openai") && openaiPkg then
    match oracle with
    | CallOutcome.exn msg => ⟨false, none, none, some msg, []⟩
    | CallOutcome.resp t =>
      let text := pyStrip t
      let codeOut :=
        match extract_code text with
        | some c => if c != "" then c else text
        | none => text
      ⟨true, some codeOut, some text, none, openaiMeta model⟩
  else
    ⟨true, some code, none, none, [("provider", "local"), ("note", "no-op repair")]⟩

/-! ## Artifact store and evolution loop (arifi_protocol_runner.py) -/

/-- Contents of a persisted file.  Code files hold their text; the two
metadata records are kept abstractly as the data they serialize
(save_artifacts writes json.dumps of prompt/language/generated_at,
attempt_evolve writes json.dumps of repaired_by_ai/iter). -/
inductive FileData where
  | text (s : String)
  | genMeta (prompt lang ts : String)
  | repairMeta (iter : Nat)
deriving DecidableEq, Repr

/-- The output directory as an association list from file name to data. -/
abbrev FS := List (String × FileData)

/-- Path.write_text: create the file or overwrite an existing one in place. -/
def fsWrite : FS → String → FileData → FS
  | [], p, d => [(p, d)]
  | (q, e) :: rest, p, d =>
    if q = p then (q, d) :: rest else (q, e) :: fsWrite rest p d

/-- Path.read_text of a code file.  Total model: every call site in this
development reads a path that was previously written with text data. -/
def readText (fs : FS) (p : String) : String :=
  match List.lookup p fs with
  | some (FileData.text s) => s
  | _ => ""

/-- The extension chosen by save_artifacts from the language name. -/
def save_ext (lang : String) : String :=
  if lang = "python" then "py" else if lang = "javascript" then "js" else "txt"

/-- Models save_artifacts (arifi_protocol_runner.py lines 77-84).  `ts` is
datetime.now() formatted as %Y%m%d-%H%M%S (second resolution), supplied
by the caller's clock.  Writes the content file and the sibling
`.meta.json` record and returns the new store plus the content path. -/
def save_artifacts (fs : FS) (code prompt lang ts : String) : FS × String :=
  let ext := save_ext lang
  let out := "generated_" ++ ts ++ "." ++ ext
  let fs1 := fsWrite fs out (FileData.text code)
  let fs2 := fsWrite fs1 (out ++ ".meta.json") (FileData.genMeta prompt lang ts)
  (fs2, out)

/-- Index (from the front) of the last occurrence of a character. -/
def lastIdxOf (c : Char) : List Char → Option Nat
  | [] => none
  | x :: xs =>
    match lastIdxOf c xs with
    | some j => some (j + 1)
    | none => if x == c then some 0 else none

/-- CPython PurePath stem/suffix rule for a bare file name: split at the
last dot when it is neither the first nor the last character, otherwise
the suffix is empty. -/
def pathSplitExt (p : String) : String × String :=
  let cs := p.data
  match lastIdxOf '.' cs with
  | some i => if 0 < i ∧ i + 1 < cs.length then (⟨cs.take i⟩, ⟨cs.drop i⟩) else (p, "")
  | none => (p, "")

/-- Path.stem. -/
def pathStem (p : String) : String := (pathSplitExt p).1

/-- Path.suffix. -/
def pathSuffix (p : String) : String := (pathSplitExt p).2

/-- The language string attempt_evolve passes to repair_code:
`"python" if current_path.suffix == ".py" else "javascript"`. -/
def repairLang (p : String) : String :=
  if pathSuffix p = ".py" then "python" else "javascript"

/-- Outcome of one backend.repair_code call as observed by the loop: a
successful result carrying the repaired code, or success=false with an
optional error text. -/
inductive RepairOutcome where
  | ok (code : String)
  | fail (err : Option String)
deriving DecidableEq, Repr

/-- Observable result of attempt_evolve: the final store, the returned
path, the number of loop iterations that ran an analysis, and the number
of repair calls issued. -/
structure EvolveResult where
  fs : FS
  final : String
  analyses : Nat
  repairs : Nat
deriving DecidableEq, Repr

/-- The body of attempt_evolve's for-loop (arifi_protocol_runner.py lines
95-123), with the remaining iteration budget as structural fuel and `i`
the current iteration index.  `analyzeO i` is the report of the i-th
analysis pass (the outcomes of the external analyzer processes);
`repairO` receives the iteration index and the arguments the code passes
to backend.repair_code.  Gate pass or a failed repair breaks the loop; a
successful repair writes the `_r{i+1}` artifact and its metadata and
continues on the new path. -/
def evolveLoop (analyzeO : Nat → Report)
    (repairO : Nat → String → Report → String → RepairOutcome) :
    Nat → Nat → FS → String → EvolveResult
  | 0, _, fs, cur => ⟨fs, cur, 0, 0⟩
  | fuel + 1, i, fs, cur =>
    let report := analyzeO i
    if metrics_ok report then ⟨fs, cur, 1, 0⟩
    else
      let codeText := readText fs cur
      match repairO i codeText report (repairLang cur) with
      | RepairOutcome.fail _ => ⟨fs, cur, 1, 1⟩
      | RepairOutcome.ok repaired =>
        let newPath := pathStem cur ++ "_r" ++ toString (i + 1) ++ pathSuffix cur
        let fs1 := fsWrite fs newPath (FileData.text repaired)
        let fs2 := fsWrite fs1 (newPath ++ ".meta.json") (FileData.repairMeta (i + 1))
        let r := evolveLoop analyzeO repairO fuel (i + 1) fs2 newPath
        ⟨r.fs, r.final, r.analyses + 1, r.repairs + 1⟩

/-- The configured iteration bound (arifi_protocol_runner.py line 26). -/
def MAX_EVOLVE_ITER : Nat := 3

/-- The default model name (arifi_protocol_runner.py line 27). -/
def AI_MODEL : String := "gpt-4o-mini"

/-- Models attempt_evolve (arifi_protocol_runner.py lines 95-123): run the
loop from iteration 0 with the given iteration budget on the initially
saved artifact path. -/
def attempt_evolve (analyzeO : Nat → Report)
    (repairO : Nat → String → Report → String → RepairOutcome)
    (maxIter : Nat) (fs : FS) (outPath : String) : EvolveResult :=
  evolveLoop analyzeO repairO maxIter 0 fs outPath

/-! ## Helper lemmas -/

/-- A metrics_ok clause is false exactly when the tool's finding, if
present, has exit status 0. -/
theorem failsTool_false_iff (report : Report) (tool : String) :
    failsTool report tool = false ↔
      ∀ r, List.lookup tool report.findings = some r → r.rc = 0 := by
  unfold failsTool
  cases h : List.lookup tool report.findings with
  | none => simp
  | some r => simp [h, bne_eq_false_iff_eq]

/-! ## Claim C1 -/

/-- Claim C1 counterexample: a Python report in which flake8 and mypy
exit 0 but radon exits 1 — reachable from analyze_file — passes the
gate, although the claim demands that any non-zero finding (radon
included) makes metrics_ok return false. -/
theorem c1_counterexample :
    metrics_ok (analyze_file "py"
        (fun t => if t = "radon" then ExecOutcome.ok 1 "C 901" "" else ExecOutcome.ok 0 "" ""))
      = true ∧
    List.lookup "radon"
        (Report.findings (analyze_file "py"
          (fun t => if t = "radon" then ExecOutcome.ok 1 "C 901" "" else ExecOutcome.ok 0 "" "")))
      = some ⟨1, "C 901", ""⟩ := by
  decide

/-- Claim C1 (amended): metrics_ok is a pure total function returning
true iff each of the flake8, mypy and eslint findings present in the
report has exit status 0; findings recorded under any other key — in
particular the radon finding of Python reports — are not consulted.  (An
all-zero report, including the empty one, therefore still passes.) -/
theorem c1_amended_gate_iff (report : Report) :
    metrics_ok report = true ↔
      ((∀ r, List.lookup "flake8" report.findings = some r → r.rc = 0) ∧
       (∀ r, List.lookup "mypy" report.findings = some r → r.rc = 0) ∧
       (∀ r, List.lookup "eslint" report.findings = some r → r.rc = 0)) := by
  rw [← failsTool_false_iff report "flake8", ← failsTool_false_iff report "mypy",
    ← failsTool_false_iff report "eslint"]
  unfold metrics_ok
  cases h1 : failsTool report "flake8" <;> cases h2 : failsTool report "mypy" <;>
    cases h3 : failsTool report "eslint" <;> simp

/-- Claim C1 witness: the amended equivalence instantiated at the empty
report. -/
theorem c1_amended_gate_iff_witness :
    metrics_ok ⟨[], none⟩ = true ↔
      ((∀ r, List.lookup "flake8" (Report.mk [] none).findings = some r → r.rc = 0) ∧
       (∀ r, List.lookup "mypy" (Report.mk [] none).findings = some r → r.rc = 0) ∧
       (∀ r, List.lookup "eslint" (Report.mk [] none).findings = some r → r.rc = 0)) :=
  c1_amended_gate_iff ⟨[], none⟩

/-! ## Claim C7 -/

/-- Claim C7 (confirmed): a crashed or timed-out analyzer invocation is
recorded as a finding with the synthetic non-zero exit status 2 and the
captured exception text, and regardless of how the individual analyzer
processes behave, the report contains exactly one finding per configured
analyzer for the artifact's language, in configuration order. -/
theorem c7_crash_isolation (world : String → ExecOutcome) (msg : String) :
    runCmd (ExecOutcome.exn msg) = ⟨2, "", msg⟩ ∧
    (analyze_file "py" world).findings.map Prod.fst = ["flake8", "mypy", "radon"] ∧
    (analyze_file "js" world).findings.map Prod.fst = ["eslint"] ∧
    (analyze_file "ts" world).findings.map Prod.fst = ["eslint"] := by
  refine ⟨rfl, rfl, ?_, ?_⟩ <;> simp [analyze_file]

/-! ## Claim C8 -/

/-- Claim C8 (confirmed): for an artifact language that is neither
Python nor JS/TS the configured analyzer set is empty, so the report
carries no findings (only the informational note) and the gate passes. -/
theorem c8_unknown_language_empty (lang : String) (world : String → ExecOutcome)
    (h1 : lang ≠ "py") (h2 : lang ≠ "js") (h3 : lang ≠ "ts") :
    (analyze_file lang world).findings = [] ∧
    metrics_ok (analyze_file lang world) = true := by
  have hrep : analyze_file lang world = ⟨[], some ("no analyzer for ." ++ lang)⟩ := by
    simp [analyze_file, h1, h2, h3]
  rw [hrep]
  exact ⟨rfl, rfl⟩

/-- Claim C8 witness: a ".txt" artifact with well-behaved analyzer
processes yields the empty-findings report and passes the gate. -/
theorem c8_unknown_language_empty_witness :
    (analyze_file "txt" (fun _ => ExecOutcome.ok 0 "" "")).findings = [] ∧
    metrics_ok (analyze_file "txt" (fun _ => ExecOutcome.ok 0 "" "")) = true :=
  c8_unknown_language_empty "txt" (fun _ => ExecOutcome.ok 0 "" "")
    (by decide) (by decide) (by decide)

/-! ## Claim C2 -/

/-- Claim C2 (code bug, evaluation): under the local provider the
request whose detected target language is "javascript" receives the
Python stub template, because `"javascript".lower().startswith("js")` is
false ("javascript" begins with "ja"); the JavaScript template is only
produced for language strings that literally start with "js".  The
"python" half of the claim does hold. -/
theorem c2_stub_language_eval :
    detect_language_from_prompt "tolong buatkan javascript calculator" = "javascript" ∧
    generate_code_local "p" "javascript" =
      ⟨true, some (pyStub "p"), none, none, [("provider", "local"), ("model", "stub")]⟩ ∧
    generate_code_local "p" "python" =
      ⟨true, some (pyStub "p"), none, none, [("provider", "local"), ("model", "stub")]⟩ ∧
    generate_code_local "p" "js" =
      ⟨true, some (jsStub "p"), none, none, [("provider", "local"), ("model", "stub")]⟩ ∧
    (generate_code (selectProvider none false none) false AI_MODEL
        (fun _ => CallOutcome.exn "no network") 2 "p" "javascript").result =
      ⟨true, some (pyStub "p"), none, none, [("provider", "local"), ("model", "stub")]⟩ := by
  refine ⟨rfl, rfl, rfl, rfl, rfl⟩

/-! ## Claim C3 -/

/-- Claim C3 (code bug, evaluation): because the extraction regexes are
raw strings containing `\\n`, they require the literal two-character
sequence backslash-n around the payload (and the `[\\s\\S]` class admits
only backslash, s and S inside it), so a normal fenced response with
real newlines extracts nothing and generate_code returns the whole
fenced text as the code.  The fallback half of the claim does hold, and
the only texts the code can extract are of the literal-backslash shape,
as the third conjunct illustrates. -/
theorem c3_extract_code_eval :
    extract_code "```python\nprint(1)\n```" = none ∧
    (genAttempts AI_MODEL (fun _ => CallOutcome.resp "```python\nprint(1)\n```") 0 0).result =
      ⟨true, some "```python\nprint(1)\n```", some "```python\nprint(1)\n```", none,
        openaiMeta AI_MODEL⟩ ∧
    extract_code "```py\\nsS\\n```" = some "sS" := by
  refine ⟨rfl, rfl, rfl⟩

/-! ## Claim C10 -/

/-- Claim C10 (confirmed): with no OpenAI credentials the selected
provider is "local" and repair_code is the identity on the code payload:
it succeeds and returns the input code unchanged, for every code,
analysis report and language. -/
theorem c10_local_repair_identity (pkg : Bool) (oracle : CallOutcome)
    (model code language : String) (report : Report) :
    selectProvider none pkg none = "local" ∧
    repair_code (selectProvider none pkg none) pkg oracle model code report language =
      ⟨true, some code, none, none, [("provider", "local"), ("note", "no-op repair")]⟩ := by
  cases pkg <;> exact ⟨rfl, rfl⟩

/-! ## Claim C9 -/

/-- Claim C9 counterexample: two save_artifacts calls in the same wall
clock second with the same language target the same file name, so the
second call overwrites the first artifact's content file — the record
does not remain unchanged. -/
theorem c9_counterexample :
    List.lookup "generated_20250101-120000.py"
        (save_artifacts [] "print(1)" "p" "python" "20250101-120000").1
      = some (FileData.text "print(1)") ∧
    List.lookup "generated_20250101-120000.py"
        (save_artifacts (save_artifacts [] "print(1)" "p" "python" "20250101-120000").1
          "print(2)" "p" "python" "20250101-120000").1
      = some (FileData.text "print(2)") := by
  decide

/-- Preservation of unrelated keys under a single store write. -/
theorem lookup_fsWrite_ne (fs : FS) (p q : String) (d : FileData) (h : p ≠ q) :
    List.lookup p (fsWrite fs q d) = List.lookup p fs := by
  induction fs with
  | nil => simp [fsWrite, List.lookup, beq_eq_false_iff_ne.mpr h]
  | cons hd tl ih =>
    obtain ⟨k, v⟩ := hd
    by_cases hk : k = q
    · subst hk
      simp [fsWrite, List.lookup, beq_eq_false_iff_ne.mpr h]
    · simp only [fsWrite, if_neg hk, List.lookup]
      cases hpk : p == k <;> simp [ih]

/-- Claim C9 (amended): a save never deletes records and touches only
its two target paths, which are determined solely by the timestamp and
the language's extension: every previously written record at any other
path is unchanged afterwards.  Two saves that share both the creation
timestamp and the language extension target the same paths, so the later
one overwrites the earlier (see the counterexample). -/
theorem c9_amended_frame (fs : FS) (code prompt lang ts p : String) (d : FileData)
    (hp : List.lookup p fs = some d)
    (h1 : p ≠ "generated_" ++ ts ++ "." ++ save_ext lang)
    (h2 : p ≠ "generated_" ++ ts ++ "." ++ save_ext lang ++ ".meta.json") :
    List.lookup p (save_artifacts fs code prompt lang ts).1 = some d := by
  simp only [save_artifacts]
  rw [lookup_fsWrite_ne _ _ _ _ h2, lookup_fsWrite_ne _ _ _ _ h1]
  exact hp

/-- Claim C9 witness: a record written before a save at a different
timestamp-derived path is still readable, unchanged, afterwards. -/
theorem c9_amended_frame_witness :
    List.lookup "keep.py"
        (save_artifacts [("keep.py", FileData.text "k")] "new code" "p" "python"
          "20250101-000000").1
      = some (FileData.text "k") :=
  c9_amended_frame [("keep.py", FileData.text "k")] "new code" "p" "python"
    "20250101-000000" "keep.py" (FileData.text "k") (by decide) (by decide) (by decide)

/-! ## Claim C4 -/

/-- List.range' with step 1 is strictly increasing. -/
theorem pairwise_lt_range_one (n s : Nat) : List.Pairwise (· < ·) (List.range' s n) := by
  induction n generalizing s with
  | zero => simp
  | succ m ih =>
    rw [List.range'_succ]
    refine List.Pairwise.cons ?_ (ih (s + 1))
    intro b hb
    have := (List.mem_range'_1.mp hb).1
    omega

/-- When every remote call in the budget window answers with a response
whose extraction is falsy, the retry loop issues one call per budget
unit plus the final one, sleeps `1 + attempt` seconds between
consecutive attempts, and ends successfully on the raw text. -/
theorem genAttempts_nocode (model : String) (oracle : Nat → CallOutcome) :
    ∀ (remaining attempt : Nat),
      (∀ i, attempt ≤ i → i ≤ attempt + remaining →
        ∃ t, oracle i = CallOutcome.resp t ∧ hasTruthyCode (pyStrip t) = false) →
      (genAttempts model oracle attempt remaining).calls = remaining + 1 ∧
      (genAttempts model oracle attempt remaining).sleeps = List.range' (1 + attempt) remaining ∧
      (genAttempts model oracle attempt remaining).result.success = true := by
  intro remaining
  induction remaining with
  | zero =>
    intro attempt h
    obtain ⟨t, ht, htc⟩ := h attempt le_rfl le_rfl
    cases hx : extract_code (pyStrip t) with
    | none => simp [genAttempts, ht, hx, List.range']
    | some c =>
      have htc2 : (c != "") = false := by
        unfold hasTruthyCode at htc
        rw [hx] at htc
        exact htc
      simp [genAttempts, ht, hx, htc2, List.range']
  | succ n ih =>
    intro attempt h
    obtain ⟨t, ht, htc⟩ := h attempt le_rfl (by omega)
    obtain ⟨ih1, ih2, ih3⟩ := ih (attempt + 1) (fun i hi1 hi2 => h i (by omega) (by omega))
    cases hx : extract_code (pyStrip t) with
    | none =>
      refine ⟨?_, ?_, ?_⟩ <;>
        simp [genAttempts, ht, hx, ih1, ih2, ih3, List.range'_succ] <;> omega
    | some c =>
      have htc2 : (c != "") = false := by
        unfold hasTruthyCode at htc
        rw [hx] at htc
        exact htc
      refine ⟨?_, ?_, ?_⟩ <;>
        simp [genAttempts, ht, hx, htc2, ih1, ih2, ih3, List.range'_succ] <;> omega

/-- Claim C4 counterexample: a transient-looking network failure on the
very first remote call makes generate_code surface success=false after
exactly one call, with no sleep and no retry, although max_retry is 2 —
the claim's "retries up to the configured bound with increasing delay
before surfacing failure" does not happen. -/
theorem c4_counterexample :
    generate_code "openai" true AI_MODEL (fun _ => CallOutcome.exn "Connection reset by peer")
        2 "p" "python" =
      ⟨⟨false, none, none, some "Connection reset by peer", []⟩, 1, []⟩ := by
  rfl

/-- Claim C4 (amended): the try/except of generate_code wraps the whole
retry loop, so any exception raised by the remote call — transient or
not — immediately yields success=false with the error text after that
single call, with no retry and no delay.  The retry-with-strictly-
increasing-delay behaviour exists, but it is triggered by successful
calls whose response contains no truthy extractable code: then the loop
re-calls up to max_retry extra times, sleeping 1 + attempt seconds
(strictly increasing) between attempts, and finally returns the raw
response text with success=true. -/
theorem c4_amended_retry_policy (model : String) (oracle : Nat → CallOutcome) (mr : Nat) :
    (∀ prompt language, generate_code "openai" true model oracle mr prompt language =
      genAttempts model oracle 0 mr) ∧
    (∀ msg, oracle 0 = CallOutcome.exn msg →
      genAttempts model oracle 0 mr = ⟨⟨false, none, none, some msg, []⟩, 1, []⟩) ∧
    ((∀ i, i ≤ mr → ∃ t, oracle i = CallOutcome.resp t ∧ hasTruthyCode (pyStrip t) = false) →
      (genAttempts model oracle 0 mr).calls = mr + 1 ∧
      (genAttempts model oracle 0 mr).sleeps = List.range' 1 mr ∧
      List.Pairwise (· < ·) (genAttempts model oracle 0 mr).sleeps ∧
      (genAttempts model oracle 0 mr).result.success = true) := by
  refine ⟨fun prompt language => rfl, ?_, ?_⟩
  · intro msg hmsg
    cases mr <;> simp [genAttempts, hmsg]
  · intro h
    obtain ⟨h1, h2, h3⟩ := genAttempts_nocode model oracle mr 0 (fun i hi1 hi2 => h i (by omega))
    refine ⟨h1, h2, ?_, h3⟩
    rw [h2]
    exact pairwise_lt_range_one mr 1

/-- Claim C4 witness: with every call answering a fence-less response
and max_retry = 2, generate_code makes 3 calls with the strictly
increasing sleeps [1, 2] and succeeds on the raw text. -/
theorem c4_amended_retry_policy_witness :
    (genAttempts AI_MODEL (fun _ => CallOutcome.resp "hello") 0 2).calls = 2 + 1 ∧
    (genAttempts AI_MODEL (fun _ => CallOutcome.resp "hello") 0 2).sleeps = List.range' 1 2 ∧
    List.Pairwise (· < ·) (genAttempts AI_MODEL (fun _ => CallOutcome.resp "hello") 0 2).sleeps ∧
    (genAttempts AI_MODEL (fun _ => CallOutcome.resp "hello") 0 2).result.success = true :=
  (c4_amended_retry_policy AI_MODEL (fun _ => CallOutcome.resp "hello") 2).2.2
    (fun i _ => ⟨"hello", rfl, by decide⟩)

/-! ## Claims C5 and C6 -/

/-- The loop performs at most `fuel` analyses and at most `fuel` repair
calls, for every oracle, store and starting path. -/
theorem evolveLoop_bounds (analyzeO : Nat → Report)
    (repairO : Nat → String → Report → String → RepairOutcome) :
    ∀ (fuel i : Nat) (fs : FS) (cur : String),
      (evolveLoop analyzeO repairO fuel i fs cur).analyses ≤ fuel ∧
      (evolveLoop analyzeO repairO fuel i fs cur).repairs ≤ fuel := by
  intro fuel
  induction fuel with
  | zero => intro i fs cur; simp [evolveLoop]
  | succ n ih =>
    intro i fs cur
    by_cases hok : metrics_ok (analyzeO i) = true
    · simp [evolveLoop, hok]
    · have hok2 : metrics_ok (analyzeO i) = false := by
        cases h : metrics_ok (analyzeO i)
        · rfl
        · exact absurd h hok
      cases hr : repairO i (readText fs cur) (analyzeO i) (repairLang cur) with
      | fail e => simp [evolveLoop, hok2, hr]
      | ok s =>
        simp only [evolveLoop, hok2, Bool.false_eq_true, if_false, hr]
        refine ⟨Nat.succ_le_succ ?_, Nat.succ_le_succ ?_⟩
        · exact (ih _ _ _).1
        · exact (ih _ _ _).2

/-- If the gate fails at every analysis and every repair call succeeds,
the loop uses its entire budget: one repair call per fuel unit. -/
theorem evolveLoop_allfail_repairs (analyzeO : Nat → Report)
    (repairO : Nat → String → Report → String → RepairOutcome)
    (hA : ∀ j, metrics_ok (analyzeO j) = false)
    (hR : ∀ j c r l, ∃ s, repairO j c r l = RepairOutcome.ok s) :
    ∀ (fuel i : Nat) (fs : FS) (cur : String),
      (evolveLoop analyzeO repairO fuel i fs cur).repairs = fuel := by
  intro fuel
  induction fuel with
  | zero => intro i fs cur; simp [evolveLoop]
  | succ n ih =>
    intro i fs cur
    obtain ⟨s, hs⟩ := hR i (readText fs cur) (analyzeO i) (repairLang cur)
    simp [evolveLoop, hA i, hs, ih]

/-- Claim C5 (confirmed): the default iteration bound is 3, and for any
bound M attempt_evolve always terminates after at most M loop
iterations, issuing at most M repair calls; when the gate fails at
every analysis and every repair call succeeds (the exhaust-the-budget
session), it issues exactly M repair calls — never M + 1. -/
theorem c5_bounded_iterations (analyzeO : Nat → Report)
    (repairO : Nat → String → Report → String → RepairOutcome)
    (M : Nat) (fs : FS) (outPath : String) :
    MAX_EVOLVE_ITER = 3 ∧
    (attempt_evolve analyzeO repairO M fs outPath).analyses ≤ M ∧
    (attempt_evolve analyzeO repairO M fs outPath).repairs ≤ M ∧
    ((∀ j, metrics_ok (analyzeO j) = false) →
      (∀ j c r l, ∃ s, repairO j c r l = RepairOutcome.ok s) →
      (attempt_evolve analyzeO repairO M fs outPath).repairs = M) :=
  ⟨rfl, (evolveLoop_bounds analyzeO repairO M 0 fs outPath).1,
    (evolveLoop_bounds analyzeO repairO M 0 fs outPath).2,
    fun hA hR => evolveLoop_allfail_repairs analyzeO repairO hA hR M 0 fs outPath⟩

/-- Claim C5 witness: with an always-failing flake8 finding and an
identity repair backend, a session with the default bound 3 issues
exactly 3 repair calls. -/
theorem c5_bounded_iterations_witness :
    (attempt_evolve (fun _ => ⟨[("flake8", ⟨1, "E999", ""⟩)], none⟩)
        (fun _ c _ _ => RepairOutcome.ok c) MAX_EVOLVE_ITER
        [("generated_a.py", FileData.text "x")] "generated_a.py").repairs = MAX_EVOLVE_ITER :=
  (c5_bounded_iterations (fun _ => ⟨[("flake8", ⟨1, "E999", ""⟩)], none⟩)
      (fun _ c _ _ => RepairOutcome.ok c) MAX_EVOLVE_ITER
      [("generated_a.py", FileData.text "x")] "generated_a.py").2.2.2
    (fun j => by decide) (fun j c r l => ⟨c, rfl⟩)

/-- Claim C6 (confirmed): at any loop iteration with budget remaining,
if the gate fails and the repair call returns success=false, the loop
stops immediately: the store is returned unchanged (no new artifact or
metadata is written) and the current path — the last successfully
produced artifact — is the final result, after that single analysis and
single (failed) repair call. -/
theorem c6_repair_failure_stops (analyzeO : Nat → Report)
    (repairO : Nat → String → Report → String → RepairOutcome)
    (fuel i : Nat) (fs : FS) (cur : String) (e : Option String)
    (hg : metrics_ok (analyzeO i) = false)
    (hr : repairO i (readText fs cur) (analyzeO i) (repairLang cur) = RepairOutcome.fail e) :
    evolveLoop analyzeO repairO (fuel + 1) i fs cur = ⟨fs, cur, 1, 1⟩ := by
  simp [evolveLoop, hg, hr]

/-- Claim C6 witness: a failing analysis at iteration 0 followed by a
repair refusal leaves the store untouched and returns iteration 0's
artifact. -/
theorem c6_repair_failure_stops_witness :
    evolveLoop (fun _ => ⟨[("flake8", ⟨1, "E999", ""⟩)], none⟩)
        (fun _ _ _ _ => RepairOutcome.fail (some "boom")) 3 0
        [("generated_a.py", FileData.text "x")] "generated_a.py" =
      ⟨[("generated_a.py", FileData.text "x")], "generated_a.py", 1, 1⟩ :=
  c6_repair_failure_stops (fun _ => ⟨[("flake8", ⟨1, "E999", ""⟩)], none⟩)
    (fun _ _ _ _ => RepairOutcome.fail (some "boom")) 2 0
    [("generated_a.py", FileData.text "x")] "generated_a.py" (some "boom")
    (by decide) rfl

end ARunner
